import Mathlib

/-!
Verification of the Splash `Timer` class (src/include/timer.h).

The C++ class is a process-wide timing registry.  We embed it shallowly:
the mutable members become a `TimerState` record, each member function
becomes a Lean function from the state (plus an explicit clock sample
`now`, standing for the value read from the steady clock, and an explicit
thread identifier `tid` where the code queries the current thread) to a
new state and results.  Blocking is modelled by returning the number of
nanoseconds the call asks `nanosleep` for.  Machine `unsigned long long`
arithmetic is modelled on `Nat` with explicit reduction modulo `2^64`
where the code can wrap (the `currentTime - startTime` subtraction).
The std::unordered_map members are modelled as association lists with an
upsert that mirrors the `find`-then-insert-or-assign pattern of the code.
-/

namespace Splash

/-- Lookup in an association list, mirroring `map.find(name)` in the code. -/
def lookupKey : List (String × Nat) → String → Option Nat
  | [], _ => none
  | (k, v) :: rest, name => if k = name then some v else lookupKey rest name

/-- Upsert in an association list: the code does `find`, then `map[name] = v`
when absent and `it->second = v` when present; both are this update. -/
def updateKey : List (String × Nat) → String → Nat → List (String × Nat)
  | [], name, v => [(name, v)]
  | (k, w) :: rest, name, v =>
      if k = name then (name, v) :: rest else (k, w) :: updateKey rest name v

/-- Wrapping 64-bit subtraction: the code computes
`elapsed = currentTime - timeIt->second` in `unsigned long long`. -/
def sub64 (a b : Nat) : Nat := (a + 2 ^ 64 - b % 2 ^ 64) % 2 ^ 64

/-- The mutable members of the `Timer` singleton.  `mutexLocked` models
whether `_timerMutex` is held (it is locked by the publish operator and
released by a successful consume); `durationThreadId` models the
`std::thread::id` stored by the publish operator, as an abstract `Nat`. -/
structure TimerState where
  timeMap : List (String × Nat)
  durationMap : List (String × Nat)
  currentDuration : Nat
  isDurationSet : Bool
  durationThreadId : Nat
  mutexLocked : Bool
  enabled : Bool
  isDebug : Bool
  clock : List Int
deriving DecidableEq

/-- The state after construction: both maps empty, `_currentDuration{0}`,
`_isDurationSet{false}`, `_enabled{true}`, `_isDebug{false}`, `_clock` empty. -/
def initTimer : TimerState :=
  { timeMap := []
    durationMap := []
    currentDuration := 0
    isDurationSet := false
    durationThreadId := 0
    mutexLocked := false
    enabled := true
    isDebug := false
    clock := [] }

/-- `Timer::start(name)`: no-op when disabled, otherwise record the current
steady-clock microsecond count as the start timestamp for `name`. -/
def start (s : TimerState) (now : Nat) (name : String) : TimerState :=
  if s.enabled = false then s
  else { s with timeMap := updateKey s.timeMap name now }

/-- `Timer::stop(name)`: no-op when disabled or when `name` has no start
timestamp; otherwise store `now - startTime` as the last duration. -/
def stop (s : TimerState) (now : Nat) (name : String) : TimerState :=
  if s.enabled = false then s
  else
    match lookupKey s.timeMap name with
    | none => s
    | some startT =>
        { s with durationMap := updateKey s.durationMap name (sub64 now startT) }

/-- `Timer::waitUntilDuration(name, duration)`.  Returns the new state, the
overtime flag, and the number of nanoseconds passed to `nanosleep`
(`(duration - elapsed) * 1e3` when `elapsed < duration`, else `0`). -/
def waitUntilDuration (s : TimerState) (now : Nat) (name : String) (duration : Nat) :
    TimerState × Bool × Nat :=
  if s.enabled = false then (s, false, 0)
  else
    match lookupKey s.timeMap name with
    | none => (s, false, 0)
    | some startT =>
        let elapsed := sub64 now startT
        let s' := { s with durationMap := updateKey s.durationMap name (max duration elapsed) }
        if elapsed < duration then (s', false, (duration - elapsed) * 1000)
        else (s', true, 0)

/-- `Timer::getDuration(name)`: the last recorded duration, or 0 when none. -/
def getDuration (s : TimerState) (name : String) : Nat :=
  match lookupKey s.durationMap name with
  | none => 0
  | some d => d

/-- `Timer::setDuration(name, value)`: unconditional upsert of the duration
map; note there is no `_enabled` guard in the source. -/
def setDuration (s : TimerState) (name : String) (value : Nat) : TimerState :=
  { s with durationMap := updateKey s.durationMap name value }

/-- `Timer::sinceLastSeen(name)`: first call arms the timer and returns 0;
otherwise `stop`, read the duration back, re-`start`, return the duration.
`now1` is the clock sample of the first timed call and `now2` the sample
taken by the final `start`. -/
def sinceLastSeen (s : TimerState) (now1 now2 : Nat) (name : String) :
    TimerState × Nat :=
  match lookupKey s.timeMap name with
  | none => (start s now1 name, 0)
  | some _ =>
      let s1 := stop s now1 name
      let d := getDuration s1 name
      (start s1 now2 name, d)

/-- `Timer::operator<<(name)`: calls `start(name)` and sets
`_currentDuration = 0`.  (It does not touch `_isDurationSet`.) -/
def streamStart (s : TimerState) (now : Nat) (name : String) : TimerState :=
  { start s now name with currentDuration := 0 }

/-- `Timer::operator>>(duration)`: lock `_timerMutex`, store the value and
the calling thread id, and mark the slot set; the lock stays held. -/
def streamPublish (s : TimerState) (tid : Nat) (duration : Nat) : TimerState :=
  { s with
      mutexLocked := true
      currentDuration := duration
      durationThreadId := tid
      isDurationSet := true }

/-- `Timer::operator>>(name)`: consume the pending duration only when the
slot is set and the calling thread matches the publisher; then either pace
via `waitUntilDuration` (positive value) or fall back to `stop`. -/
def streamConsume (s : TimerState) (tid now : Nat) (name : String) :
    TimerState × Bool × Nat :=
  let consumed : Bool := s.isDurationSet && s.durationThreadId == tid
  let duration : Nat := if consumed then s.currentDuration else 0
  let s1 : TimerState :=
    if consumed then
      { s with isDurationSet := false, currentDuration := 0, mutexLocked := false }
    else s
  if 0 < duration then waitUntilDuration s1 now name duration
  else (stop s1 now name, false, 0)

/-- `Timer::setStatus(enabled)`. -/
def setStatus (s : TimerState) (enabled : Bool) : TimerState :=
  { s with enabled := enabled }

/-- `Timer::setDebug(d)`. -/
def setDebug (s : TimerState) (d : Bool) : TimerState :=
  { s with isDebug := d }

/-- `Timer::setMasterClock(clock)`: store the sequence only when it has
exactly 8 fields; otherwise do nothing. -/
def setMasterClock (s : TimerState) (clock : List Int) : TimerState :=
  if clock.length = 8 then { s with clock := clock } else s

/-- `Timer::getMasterClock(Values& clock)`: when a clock is stored, copy it
into the output and return true; otherwise return false and leave the
output untouched.  `out` is the value held by the output argument before
the call; the result pairs the output argument's final value with the
returned boolean. -/
def getMasterClockValues (s : TimerState) (out : List Int) : List Int × Bool :=
  if 0 < s.clock.length then (s.clock, true) else (out, false)

/-- `Timer::getMasterClock<T>(time, paused)` instantiated at
`T = std::chrono::microseconds` (an identity duration cast).  `time` is the
value held by the output argument before the call.  Returns the final
values of `time` and `paused` and the returned boolean.  The decode is
`frames = clock[6] + (clock[5] + (clock[4] + (clock[3] + clock[2]*24)*60)*60)*120`
and `useconds = frames * 1000000 / 120` with C++ truncating division. -/
def getMasterClockUs (s : TimerState) (time : Int) : Int × Bool × Bool :=
  if s.clock.length = 0 then (time, true, false)
  else
    let c := s.clock
    let frames : Int :=
      c.getD 6 0 + (c.getD 5 0 + (c.getD 4 0 + (c.getD 3 0 + c.getD 2 0 * 24) * 60) * 60) * 120
    let useconds : Int := Int.tdiv (frames * 1000000) 120
    (useconds, c.getD 7 0 != 0, true)

/-- States reachable from the freshly constructed singleton through the
public mutating interface.  Used for global invariants. -/
inductive Reachable : TimerState → Prop where
  | init : Reachable initTimer
  | stepStart (s : TimerState) (now : Nat) (name : String) :
      Reachable s → Reachable (start s now name)
  | stepStop (s : TimerState) (now : Nat) (name : String) :
      Reachable s → Reachable (stop s now name)
  | stepWait (s : TimerState) (now : Nat) (name : String) (d : Nat) :
      Reachable s → Reachable (waitUntilDuration s now name d).1
  | stepSetDuration (s : TimerState) (name : String) (v : Nat) :
      Reachable s → Reachable (setDuration s name v)
  | stepSinceLastSeen (s : TimerState) (now1 now2 : Nat) (name : String) :
      Reachable s → Reachable (sinceLastSeen s now1 now2 name).1
  | stepStreamStart (s : TimerState) (now : Nat) (name : String) :
      Reachable s → Reachable (streamStart s now name)
  | stepStreamPublish (s : TimerState) (tid d : Nat) :
      Reachable s → Reachable (streamPublish s tid d)
  | stepStreamConsume (s : TimerState) (tid now : Nat) (name : String) :
      Reachable s → Reachable (streamConsume s tid now name).1
  | stepSetStatus (s : TimerState) (e : Bool) :
      Reachable s → Reachable (setStatus s e)
  | stepSetDebug (s : TimerState) (d : Bool) :
      Reachable s → Reachable (setDebug s d)
  | stepSetMasterClock (s : TimerState) (c : List Int) :
      Reachable s → Reachable (setMasterClock s c)

/-- Concrete state used to witness the pacing theorems: enabled, with one
armed measurement started at time 10. -/
def wState : TimerState := { initTimer with timeMap := [("frame", 10)] }

/-! ### Helper lemmas -/

/-- When no wrap occurs, the 64-bit subtraction is plain subtraction. -/
theorem sub64_eq (a b : Nat) (hba : b ≤ a) (ha : a < 2 ^ 64) : sub64 a b = a - b := by
  unfold sub64
  omega

/-- Reading back the key just written. -/
theorem lookupKey_updateKey_self (m : List (String × Nat)) (k : String) (v : Nat) :
    lookupKey (updateKey m k v) k = some v := by
  induction m with
  | nil => simp [updateKey, lookupKey]
  | cons hd tl ih =>
      obtain ⟨k', v'⟩ := hd
      by_cases h : k' = k
      · simp [updateKey, lookupKey, h]
      · simp [updateKey, lookupKey, h, ih]

theorem start_clock (s : TimerState) (now : Nat) (name : String) :
    (start s now name).clock = s.clock := by
  unfold start
  split <;> rfl

theorem start_isDurationSet (s : TimerState) (now : Nat) (name : String) :
    (start s now name).isDurationSet = s.isDurationSet := by
  unfold start
  split <;> rfl

theorem stop_clock (s : TimerState) (now : Nat) (name : String) :
    (stop s now name).clock = s.clock := by
  unfold stop
  split
  · rfl
  · split <;> rfl

theorem stop_isDurationSet (s : TimerState) (now : Nat) (name : String) :
    (stop s now name).isDurationSet = s.isDurationSet := by
  unfold stop
  split
  · rfl
  · split <;> rfl

theorem stop_currentDuration (s : TimerState) (now : Nat) (name : String) :
    (stop s now name).currentDuration = s.currentDuration := by
  unfold stop
  split
  · rfl
  · split <;> rfl

theorem wait_clock (s : TimerState) (now : Nat) (name : String) (d : Nat) :
    (waitUntilDuration s now name d).1.clock = s.clock := by
  unfold waitUntilDuration
  split
  · rfl
  · split
    · rfl
    · dsimp only
      split <;> rfl

theorem sinceLastSeen_clock (s : TimerState) (now1 now2 : Nat) (name : String) :
    (sinceLastSeen s now1 now2 name).1.clock = s.clock := by
  unfold sinceLastSeen
  split
  · exact start_clock s now1 name
  · dsimp only
    rw [start_clock, stop_clock]

theorem streamStart_clock (s : TimerState) (now : Nat) (name : String) :
    (streamStart s now name).clock = s.clock := by
  unfold streamStart
  rw [show ({ start s now name with currentDuration := 0 } : TimerState).clock =
        (start s now name).clock from rfl, start_clock]

theorem streamConsume_clock (s : TimerState) (tid now : Nat) (name : String) :
    (streamConsume s tid now name).1.clock = s.clock := by
  unfold streamConsume
  dsimp only
  split
  · split
    · rw [wait_clock]
    · rw [stop_clock]
  · split
    · rw [wait_clock]
    · rw [stop_clock]

/-! ### Claim theorems -/

/-- Claim C1: for every stored 8-field master clock, the decoding getter
computes the absolute frame count as
field6 + 120*(field5 + 60*(field4 + 60*(field3 + 24*field2))), converts it
to microseconds as frames * 1000000 / 120 (truncating division), returns
field7 as the paused flag, and returns true. -/
theorem masterClock_decode (s : TimerState) (t : Int)
    (f0 f1 f2 f3 f4 f5 f6 f7 : Int)
    (h : s.clock = [f0, f1, f2, f3, f4, f5, f6, f7]) :
    getMasterClockUs s t =
      (Int.tdiv ((f6 + 120 * (f5 + 60 * (f4 + 60 * (f3 + 24 * f2)))) * 1000000) 120,
        f7 != 0, true) := by
  simp only [getMasterClockUs, h]
  norm_num [List.getD]
  congr 1
  ring

/-- Witness for C1: storing the clock 0,0,1,2,3,4,60,0 and decoding gives
(60 + 120*(4 + 60*(3 + 60*(2 + 24*1)))) * 1000000 / 120 microseconds with
paused = false. -/
theorem masterClock_decode_witness :
    getMasterClockUs (setMasterClock initTimer [0, 0, 1, 2, 3, 4, 60, 0]) 0 =
      (Int.tdiv ((60 + 120 * (4 + 60 * (3 + 60 * (2 + 24 * 1)))) * 1000000) 120,
        false, true) := by
  have h := masterClock_decode (setMasterClock initTimer [0, 0, 1, 2, 3, 4, 60, 0]) 0
    0 0 1 2 3 4 60 0 rfl
  simpa using h

/-- Claim C2: on an enabled registry, for a name with a recorded start
timestamp, waitUntilDuration computes elapsed = now - startTime; when
elapsed < target it asks to sleep exactly (target - elapsed) * 1000
nanoseconds and returns false, when elapsed >= target it asks for a 0 ns
sleep and returns true; in both branches it records max(target, elapsed)
as the new last duration for the name.  For a name with no start
timestamp it returns false at once, sleeping 0 ns and changing nothing. -/
theorem waitUntilDuration_spec (s : TimerState) (now : Nat) (name : String)
    (target : Nat) (hen : s.enabled = true) (hnow : now < 2 ^ 64) :
    (∀ startT, lookupKey s.timeMap name = some startT → startT ≤ now →
      (now - startT < target →
        waitUntilDuration s now name target =
          ({ s with durationMap := updateKey s.durationMap name (max target (now - startT)) },
            false, (target - (now - startT)) * 1000)) ∧
      (target ≤ now - startT →
        waitUntilDuration s now name target =
          ({ s with durationMap := updateKey s.durationMap name (max target (now - startT)) },
            true, 0)) ∧
      getDuration (waitUntilDuration s now name target).1 name = max target (now - startT)) ∧
    (lookupKey s.timeMap name = none →
      waitUntilDuration s now name target = (s, false, 0)) := by
  constructor
  · intro startT hfind hle
    have hsub : sub64 now startT = now - startT := sub64_eq now startT hle hnow
    refine ⟨?_, ?_, ?_⟩
    · intro hlt
      simp [waitUntilDuration, hen, hfind, hsub, hlt]
    · intro hge
      have hnlt : ¬ (now - startT < target) := by omega
      simp [waitUntilDuration, hen, hfind, hsub, hnlt]
    · by_cases hlt : now - startT < target <;>
        simp [waitUntilDuration, hen, hfind, hsub, hlt, getDuration,
          lookupKey_updateKey_self]
  · intro hnone
    simp [waitUntilDuration, hen, hnone]

/-- Witness for C2: a measurement armed at 10, paced to 7 us at time 15,
sleeps (7 - 5) * 1000 ns, is not overtime, and records max 7 5. -/
theorem waitUntilDuration_spec_witness :
    waitUntilDuration wState 15 "frame" 7 =
      ({ wState with durationMap := updateKey wState.durationMap "frame" (max 7 (15 - 10)) },
        false, (7 - (15 - 10)) * 1000) ∧
    getDuration (waitUntilDuration wState 15 "frame" 7).1 "frame" = max 7 (15 - 10) := by
  have h := (waitUntilDuration_spec wState 15 "frame" 7 rfl (by norm_num)).1 10 rfl
    (by norm_num)
  exact ⟨h.1 (by norm_num), h.2.2⟩

/-- Claim C3: after a publish on thread A, a consume on thread A with a
positive published value is exactly a direct waitUntilDuration call with
that value on the state with the pending flag cleared, the slot zeroed and
the hand-off lock released; a consume on a different thread B degrades to
a plain stop and leaves the pending flag and the published value
unchanged. -/
theorem handoff_protocol (s0 : TimerState) (A B now : Nat) (name : String) (d : Nat)
    (hd : 0 < d) (hBA : B ≠ A) :
    streamConsume (streamPublish s0 A d) A now name =
      waitUntilDuration
        { streamPublish s0 A d with
            isDurationSet := false, currentDuration := 0, mutexLocked := false }
        now name d ∧
    streamConsume (streamPublish s0 A d) B now name =
      (stop (streamPublish s0 A d) now name, false, 0) ∧
    (streamConsume (streamPublish s0 A d) B now name).1.isDurationSet = true ∧
    (streamConsume (streamPublish s0 A d) B now name).1.currentDuration = d := by
  have hAB : (A == B) = false := beq_eq_false_iff_ne.mpr (Ne.symm hBA)
  have h2 : streamConsume (streamPublish s0 A d) B now name =
      (stop (streamPublish s0 A d) now name, false, 0) := by
    simp [streamConsume, streamPublish, hAB]
  refine ⟨?_, h2, ?_, ?_⟩
  · simp [streamConsume, streamPublish, hd]
  · rw [h2]
    exact stop_isDurationSet (streamPublish s0 A d) now name
  · rw [h2]
    exact stop_currentDuration (streamPublish s0 A d) now name

/-- Witness for C3 with publisher thread 1, foreign thread 2 and value 5. -/
theorem handoff_protocol_witness :
    streamConsume (streamPublish initTimer 1 5) 1 0 "frame" =
      waitUntilDuration
        { streamPublish initTimer 1 5 with
            isDurationSet := false, currentDuration := 0, mutexLocked := false }
        0 "frame" 5 ∧
    streamConsume (streamPublish initTimer 1 5) 2 0 "frame" =
      (stop (streamPublish initTimer 1 5) 0 "frame", false, 0) ∧
    (streamConsume (streamPublish initTimer 1 5) 2 0 "frame").1.isDurationSet = true ∧
    (streamConsume (streamPublish initTimer 1 5) 2 0 "frame").1.currentDuration = 5 :=
  handoff_protocol initTimer 1 2 0 "frame" 5 (by norm_num) (by norm_num)

/-- Counterexample to C4: the open-measurement operator does not clear the
pending-duration flag.  On a state with a published, unconsumed value,
the flag is still set after the operator runs, where the claim requires
it to be cleared. -/
theorem streamStart_flag_cex :
    (streamStart
        { initTimer with
            isDurationSet := true, currentDuration := 7, durationThreadId := 1,
            mutexLocked := true }
        0 "frame").isDurationSet = true := rfl

/-- Claim C4 (amended): the open-measurement operator is equivalent to
start followed by zeroing the pending duration value; it leaves the
pending-duration flag itself unchanged, so a previously published,
unconsumed value remains marked as set. -/
theorem streamStart_amended (s : TimerState) (now : Nat) (name : String) :
    streamStart s now name = { start s now name with currentDuration := 0 } ∧
    (streamStart s now name).isDurationSet = s.isDurationSet ∧
    (streamStart s now name).currentDuration = 0 := by
  refine ⟨rfl, ?_, rfl⟩
  exact start_isDurationSet s now name

/-- Claim C8: sinceLastSeen is start-and-return-0 when the name has no
start timestamp; otherwise it is stop followed by re-start, returning the
duration that stop recorded, which on an enabled registry equals the time
elapsed since the previous timestamp. -/
theorem sinceLastSeen_spec (s : TimerState) (now1 now2 : Nat) (name : String)
    (hen : s.enabled = true) (hnow : now1 < 2 ^ 64) :
    (lookupKey s.timeMap name = none →
      sinceLastSeen s now1 now2 name = (start s now1 name, 0)) ∧
    (∀ startT, lookupKey s.timeMap name = some startT →
      sinceLastSeen s now1 now2 name =
        (start (stop s now1 name) now2 name, getDuration (stop s now1 name) name) ∧
      (startT ≤ now1 → getDuration (stop s now1 name) name = now1 - startT)) := by
  constructor
  · intro h
    simp [sinceLastSeen, h]
  · intro startT h
    constructor
    · simp [sinceLastSeen, h]
    · intro hle
      simp [stop, hen, h, getDuration, lookupKey_updateKey_self,
        sub64_eq now1 startT hle hnow]

/-- Witness for C8: a measurement armed at 10, seen again at 15, restarts
at 20 and returns the 5 us that had elapsed. -/
theorem sinceLastSeen_spec_witness :
    sinceLastSeen wState 15 20 "frame" =
      (start (stop wState 15 "frame") 20 "frame",
        getDuration (stop wState 15 "frame") "frame") ∧
    getDuration (stop wState 15 "frame") "frame" = 15 - 10 := by
  have h := (sinceLastSeen_spec wState 15 20 "frame" rfl (by norm_num)).2 10 rfl
  exact ⟨h.1, h.2 (by norm_num)⟩

/-- Claim C9: for a name that has never completed a measurement and never had
a duration set (no entry in the duration map), getDuration returns 0; the
query is a pure read of the state. -/
theorem getDuration_unknown (s : TimerState) (name : String)
    (h : lookupKey s.durationMap name = none) : getDuration s name = 0 := by
  simp [getDuration, h]

/-- Witness for C9 at the freshly constructed state. -/
theorem getDuration_unknown_witness : getDuration initTimer "render" = 0 :=
  getDuration_unknown initTimer "render" rfl

/-- Claim C10: setDuration and getDuration are not gated by the enable flag:
the set/get round trip returns exactly the stored value in every state, in
particular after setStatus false, and the duration map written while
disabled is the same one written while enabled. -/
theorem setDuration_ungated (s : TimerState) (name : String) (v : Nat) :
    getDuration (setDuration s name v) name = v ∧
    getDuration (setDuration (setStatus s false) name v) name = v ∧
    (setDuration (setStatus s false) name v).durationMap =
      (setDuration (setStatus s true) name v).durationMap := by
  refine ⟨?_, ?_, rfl⟩ <;>
    simp [getDuration, setDuration, setStatus, lookupKey_updateKey_self]

/-- Claim C7: with the enable flag false, start, stop and waitUntilDuration
are no-ops: the state is unchanged and waitUntilDuration returns false
having asked for a 0 ns sleep. -/
theorem disabled_noop (s : TimerState) (now : Nat) (name : String) (d : Nat)
    (h : s.enabled = false) :
    start s now name = s ∧ stop s now name = s ∧
    waitUntilDuration s now name d = (s, false, 0) := by
  refine ⟨?_, ?_, ?_⟩ <;> simp [start, stop, waitUntilDuration, h]

/-- Witness for C7 on a concretely disabled state. -/
theorem disabled_noop_witness :
    start (setStatus initTimer false) 5 "frame" = setStatus initTimer false ∧
    stop (setStatus initTimer false) 5 "frame" = setStatus initTimer false ∧
    waitUntilDuration (setStatus initTimer false) 5 "frame" 7 =
      (setStatus initTimer false, false, 0) :=
  disabled_noop (setStatus initTimer false) 5 "frame" 7 rfl

/-- Claim C6: with no master clock ever stored, the copying getter returns
false and leaves its output argument untouched, and the decoding getter
sets paused to true and returns false without producing a time value. -/
theorem masterClock_unset (s : TimerState) (out : List Int) (t : Int)
    (h : s.clock = []) :
    getMasterClockValues s out = (out, false) ∧
    getMasterClockUs s t = (t, true, false) := by
  constructor <;> simp [getMasterClockValues, getMasterClockUs, h]

/-- Witness for C6 at the freshly constructed state. -/
theorem masterClock_unset_witness :
    getMasterClockValues initTimer [5] = ([5], false) ∧
    getMasterClockUs initTimer 7 = (7, true, false) :=
  masterClock_unset initTimer [5] 7 rfl

/-- Claim C5: setMasterClock with a sequence whose length is not 8 is a
no-op, and along every reachable execution the stored clock has length 0
or exactly 8. -/
theorem masterClock_length_invariant (s : TimerState) (c : List Int)
    (hs : Reachable s) :
    (c.length ≠ 8 → setMasterClock s c = s) ∧
    (s.clock.length = 0 ∨ s.clock.length = 8) := by
  constructor
  · intro hc
    simp [setMasterClock, hc]
  · induction hs with
    | init => left; rfl
    | stepStart s now name h ih => rwa [start_clock]
    | stepStop s now name h ih => rwa [stop_clock]
    | stepWait s now name d h ih => rwa [wait_clock]
    | stepSetDuration s name v h ih => exact ih
    | stepSinceLastSeen s now1 now2 name h ih => rwa [sinceLastSeen_clock]
    | stepStreamStart s now name h ih => rwa [streamStart_clock]
    | stepStreamPublish s tid d h ih => exact ih
    | stepStreamConsume s tid now name h ih => rwa [streamConsume_clock]
    | stepSetStatus s e h ih => exact ih
    | stepSetDebug s d h ih => exact ih
    | stepSetMasterClock s c' h ih =>
        unfold setMasterClock
        split
        · right
          assumption
        · exact ih

/-- Witness for C5: reject a 3-field update on a reachable state that holds
a valid 8-field clock. -/
theorem masterClock_length_invariant_witness :
    (([1, 2, 3] : List Int).length ≠ 8 →
      setMasterClock (setMasterClock initTimer [0, 0, 1, 2, 3, 4, 60, 0]) [1, 2, 3] =
        setMasterClock initTimer [0, 0, 1, 2, 3, 4, 60, 0]) ∧
    ((setMasterClock initTimer [0, 0, 1, 2, 3, 4, 60, 0]).clock.length = 0 ∨
      (setMasterClock initTimer [0, 0, 1, 2, 3, 4, 60, 0]).clock.length = 8) :=
  masterClock_length_invariant (setMasterClock initTimer [0, 0, 1, 2, 3, 4, 60, 0])
    [1, 2, 3] (Reachable.stepSetMasterClock initTimer [0, 0, 1, 2, 3, 4, 60, 0] Reachable.init)

end Splash
